import Mathlib

/-!
Verification of the usage & billing aggregation engine of `claude-tracking`.

The Python sources are shallowly embedded:
* `report.py` — `summarize`, `load_project_registry` (fallback branch),
  `compute_month_expenses`;
* `update_dashboard.py` — `compute_token_cost`.

Currency amounts, computed in Python floats, are modelled as exact rationals
(`ℚ`); the claims under verification are about the arithmetic formulas, not
float rounding. Date strings that the source parses with `strptime` are
modelled by the abstract `DateField` type recording the three behaviours the
source distinguishes: empty/absent (falsy), parseable `YYYY-MM` prefix, and
non-empty unparseable (raises `ValueError`).
-/

namespace ClaudeTracking

/-- One row of `sessions.csv` as `report.py` consumes it.  Token counts are
already parsed naturals (the `int(... or 0)` CSV plumbing is outside the
core).  A null/absent project code and a blank one are both falsy in the
source and behave identically, so both are modelled as `""`. -/
structure SessionRecord where
  date : String
  project_code : String
  cwd : String
  input_tokens : Nat
  output_tokens : Nat
  cache_creation_tokens : Nat
  cache_read_tokens : Nat
deriving DecidableEq, Repr

/-- The per-tenant accumulator of `summarize` (`report.py` lines 57-63). -/
structure TenantTotals where
  sessions : Nat
  input_tokens : Nat
  output_tokens : Nat
  cache_creation_tokens : Nat
  cache_read_tokens : Nat
deriving DecidableEq, Repr

/-- The `defaultdict` initial value (`report.py` lines 57-63). -/
def TenantTotals.zero : TenantTotals :=
  ⟨0, 0, 0, 0, 0⟩

/-- `row["project_code"] or "UNKNOWN"` (`report.py` line 66). -/
def normCode (r : SessionRecord) : String :=
  if r.project_code = "" then "UNKNOWN" else r.project_code

/-- The body of the loop in `summarize` for one row (`report.py` lines 67-72):
bump the session count and add the four token classes. -/
def addRecord (t : TenantTotals) (r : SessionRecord) : TenantTotals :=
  ⟨t.sessions + 1,
   t.input_tokens + r.input_tokens,
   t.output_tokens + r.output_tokens,
   t.cache_creation_tokens + r.cache_creation_tokens,
   t.cache_read_tokens + r.cache_read_tokens⟩

/-- One iteration of the `summarize` loop (`report.py` lines 65-72): the
mapping is updated at the row's normalized code, all other keys unchanged. -/
def summarizeStep (acc : String → TenantTotals) (r : SessionRecord) :
    String → TenantTotals :=
  fun code => if code = normCode r then addRecord (acc code) r else acc code

/-- `summarize` (`report.py` lines 50-74), viewed as the total function the
`defaultdict` denotes: keys never touched map to `TenantTotals.zero`. -/
def summarize (rows : List SessionRecord) : String → TenantTotals :=
  rows.foldl summarizeStep (fun _ => TenantTotals.zero)

/-- The key set of the dict returned by `summarize`: exactly the normalized
codes that occur in the input (every loop iteration touches `totals[code]`,
which materializes the key in the `defaultdict`). -/
def summarizeKeys (rows : List SessionRecord) : Finset String :=
  (rows.map normCode).toFinset

/-- Folding `addRecord` over a list of rows, componentwise. -/
theorem foldl_addRecord (rs : List SessionRecord) (t : TenantTotals) :
    rs.foldl addRecord t =
      ⟨t.sessions + rs.length,
       t.input_tokens + (rs.map SessionRecord.input_tokens).sum,
       t.output_tokens + (rs.map SessionRecord.output_tokens).sum,
       t.cache_creation_tokens + (rs.map SessionRecord.cache_creation_tokens).sum,
       t.cache_read_tokens + (rs.map SessionRecord.cache_read_tokens).sum⟩ := by
  induction rs generalizing t with
  | nil => simp
  | cons r rs ih =>
      simp only [List.foldl_cons, ih, addRecord, List.length_cons, List.map_cons,
        List.sum_cons]
      simp only [TenantTotals.mk.injEq]
      refine ⟨?_, ?_, ?_, ?_, ?_⟩ <;> omega

/-- Evaluating the `summarize` fold at one key only sees the rows whose
normalized code is that key. -/
theorem foldl_summarizeStep (rows : List SessionRecord)
    (init : String → TenantTotals) (code : String) :
    (rows.foldl summarizeStep init) code =
      (rows.filter (fun r => normCode r = code)).foldl addRecord (init code) := by
  induction rows generalizing init with
  | nil => simp
  | cons r rows ih =>
      simp only [List.foldl_cons, ih, List.filter_cons]
      by_cases h : normCode r = code
      · simp [summarizeStep, h]
      · have h' : ¬ code = normCode r := fun hc => h hc.symm
        simp [summarizeStep, h, h']

/-- Pointwise description of `summarize`: at each key, the bucket holds the
row count and the per-class sums over the matching rows. -/
theorem summarize_apply (rows : List SessionRecord) (code : String) :
    summarize rows code =
      ⟨(rows.filter (fun r => normCode r = code)).length,
       ((rows.filter (fun r => normCode r = code)).map SessionRecord.input_tokens).sum,
       ((rows.filter (fun r => normCode r = code)).map SessionRecord.output_tokens).sum,
       ((rows.filter (fun r => normCode r = code)).map SessionRecord.cache_creation_tokens).sum,
       ((rows.filter (fun r => normCode r = code)).map SessionRecord.cache_read_tokens).sum⟩ := by
  unfold summarize
  rw [foldl_summarizeStep, foldl_addRecord]
  simp [TenantTotals.zero]

/-- One entry of `projects.json` (`report.py` line 102). -/
structure RegistryEntry where
  cwd : String
  last_seen : String
deriving DecidableEq, Repr

/-- One iteration of the fallback loop of `load_project_registry`
(`report.py` lines 98-102): rows with a blank code or blank cwd are skipped,
otherwise `registry[code]` is overwritten with this row's cwd and date. -/
def registryStep (reg : String → Option RegistryEntry) (r : SessionRecord) :
    String → Option RegistryEntry :=
  if r.project_code ≠ "" ∧ r.cwd ≠ "" then
    fun code => if code = r.project_code then some ⟨r.cwd, r.date⟩ else reg code
  else reg

/-- The fallback branch of `load_project_registry` (`report.py` lines 94-103):
rebuild the registry by scanning the session rows in file order. -/
def load_project_registry_fallback (rows : List SessionRecord) :
    String → Option RegistryEntry :=
  rows.foldl registryStep (fun _ => none)

/-- The entry the fallback scan actually produces for a code: the cwd and
date of the last row in file order with that (non-blank) code and a
non-blank cwd. -/
def lastEntry (rows : List SessionRecord) (code : String) : Option RegistryEntry :=
  (rows.reverse.find? (fun r =>
      decide (r.project_code ≠ "") && decide (r.cwd ≠ "") &&
      decide (r.project_code = code))).map (fun r => ⟨r.cwd, r.date⟩)

/-- A month-granular date field of an expense item, as `compute_month_expenses`
treats it.  `missing` models an absent or empty string (falsy, so the source
skips the check or applies a default); `valid y m` models a non-empty string
whose first seven characters parse under `strptime(start[:7] + "-01")` as
year `y`, month `m`; `malformed` models a non-empty string that fails that
parse, which raises `ValueError` out of the whole call. -/
inductive DateField where
  | missing : DateField
  | valid (y m : Nat) : DateField
  | malformed : DateField
deriving DecidableEq, Repr

/-- Outcome of the source's `strptime` call on a date field: `none` models the
raised `ValueError`; `some none` a falsy field never parsed; `some (some (y, m))`
a successful parse. -/
def DateField.parse : DateField → Option (Option (Nat × Nat))
  | .missing => some none
  | .valid y m => some (some (y, m))
  | .malformed => none

/-- The `rate_label` strings of `compute_month_expenses`, abstracted from
their `f"${amount:.2f}/…"` float formatting into the recurrence kind and the
amount they display.  `empty` is the `""` a recurring item of unknown
frequency keeps. -/
inductive RateLabel where
  | monthly (amount : ℚ) : RateLabel
  | quarterly (amount : ℚ) : RateLabel
  | yearly (amount : ℚ) : RateLabel
  | oneTime : RateLabel
  | empty : RateLabel
deriving DecidableEq, Repr

/-- One display row produced by `compute_month_expenses` (`report.py`
lines 120-127). -/
structure ResolvedExpense where
  description : String
  rate_label : RateLabel
  amount_due : ℚ
  note : String
deriving DecidableEq, Repr

/-- One entry of the `expenses` list of a `billing.json` document, after the
`exp.get` accesses of `report.py` lines 135-137 and 154-156: `oneTime` keeps
its raw date string (used verbatim in the note and in the `startswith`
month test), `recurring` keeps its frequency string and month-granular
start/end fields (`end_` being `.missing` covers both an absent key and an
empty string, which the source treats alike via falsiness).  `unhandled`
models any other `type` tag, which the loop silently skips. -/
inductive Expense where
  | oneTime (description : String) (amount : ℚ) (date : String) : Expense
  | recurring (description : String) (amount : ℚ) (freq : String)
      (start : DateField) (end_ : DateField) : Expense
  | unhandled : Expense
deriving DecidableEq, Repr

/-- `datetime(2000, m, 1).strftime("%b")` (`report.py` lines 186, 193). -/
def monthAbbrev : Nat → String
  | 1 => "Jan" | 2 => "Feb" | 3 => "Mar" | 4 => "Apr"
  | 5 => "May" | 6 => "Jun" | 7 => "Jul" | 8 => "Aug"
  | 9 => "Sep" | 10 => "Oct" | 11 => "Nov" | 12 => "Dec"
  | _ => ""

/-- Strict `datetime` comparison of two months both pinned to day 01:
lexicographic on (year, month). -/
def monthBefore (y1 m1 y2 m2 : Nat) : Prop :=
  y1 < y2 ∨ (y1 = y2 ∧ m1 < m2)

instance (y1 m1 y2 m2 : Nat) : Decidable (monthBefore y1 m1 y2 m2) := by
  unfold monthBefore; infer_instance

/-- Python's `str.startswith`: character-wise prefix test. -/
def strStartsWith (s p : String) : Bool :=
  p.data.isPrefixOf s.data

/-- Lexicographic order on character lists.  On ISO `YYYY-MM-DD` date strings
this coincides with chronological order; it is used only to state recency of
dates in claims, never by the embedded code itself. -/
def strLexLe : List Char → List Char → Bool
  | [], _ => true
  | _ :: _, [] => false
  | a :: as, b :: bs =>
      if a.val < b.val then true
      else if b.val < a.val then false
      else strLexLe as bs

/-- Zero-pad a month number to two digits, as `strftime("%Y-%m")` does. -/
def pad2 (n : Nat) : String :=
  if n < 10 then "0" ++ toString n else toString n

/-- The `YYYY-MM` month string the report passes to `compute_month_expenses`. -/
def monthStr (y m : Nat) : String :=
  toString y ++ "-" ++ pad2 m

/-- The start-window test (`report.py` lines 159-162): a parsed start month
strictly after the target month skips the item; a falsy start skips nothing. -/
def startSkips (ty tm : Nat) : Option (Nat × Nat) → Bool
  | some (sy, sm) => decide (monthBefore ty tm sy sm)
  | none => false

/-- The end-window test (`report.py` lines 163-166): a parsed end month
strictly before the target month skips the item; a falsy end skips nothing. -/
def endSkips (ty tm : Nat) : Option (Nat × Nat) → Bool
  | some (ey, em) => decide (monthBefore ey em ty tm)
  | none => false

/-- The recurring branch of the expense loop (`report.py` lines 153-201):
window bounds first (start checked before end, so a malformed end is never
reached when the start bound already skips the item), then the frequency
dispatch.  `none` models the `ValueError` a malformed date raises. -/
def resolveRecurring (ty tm : Nat) (desc : String) (amount : ℚ) (freq : String)
    (start end_ : DateField) : Option (List ResolvedExpense) :=
  match start.parse with
  | none => none
  | some s =>
    if startSkips ty tm s then some []
    else
      match end_.parse with
      | none => none
      | some e =>
        if endSkips ty tm e then some []
        else
          let startMonth : Int := match s with
            | some (sy, sm) => (sy : Int) * 12 + (sm : Int)
            | none => 0
          let diff : Int := ((ty : Int) * 12 + (tm : Int)) - startMonth
          if freq = "monthly" then
            some [⟨desc, .monthly amount, amount, ""⟩]
          else if freq = "quarterly" then
            if diff % 3 = 0 then
              some [⟨desc, .quarterly amount, amount, ""⟩]
            else
              some [⟨desc, .quarterly amount, 0,
                "[next: " ++
                  monthAbbrev ((((tm : Int) - 1 + (3 - diff % 3)) % 12 + 1).toNat)
                  ++ "]"⟩]
          else if freq = "yearly" then
            let startMo : Nat := match s with
              | some (_, sm) => sm
              | none => tm
            if tm = startMo then
              some [⟨desc, .yearly amount, amount, ""⟩]
            else
              some [⟨desc, .yearly amount, 0,
                "[renews " ++ monthAbbrev startMo ++ "]"⟩]
          else
            some [⟨desc, .empty, 0, ""⟩]

/-- One iteration of the expense loop of `compute_month_expenses`
(`report.py` lines 134-201): the rows this item appends, or `none` when the
item raises. -/
def resolveExpense (ty tm : Nat) : Expense → Option (List ResolvedExpense)
  | .oneTime desc amount date =>
      if strStartsWith date (monthStr ty tm) then
        some [⟨desc, .oneTime, amount, "[" ++ date ++ "]"⟩]
      else
        some []
  | .recurring desc amount freq start end_ =>
      resolveRecurring ty tm desc amount freq start end_
  | .unhandled => some []

/-- Concatenation of two partial row lists: defined only when both are (an
uncaught exception in either part loses the whole result). -/
def optAppend (a b : Option (List ResolvedExpense)) : Option (List ResolvedExpense) :=
  match a, b with
  | some x, some y => some (x ++ y)
  | _, _ => none

/-- `compute_month_expenses` (`report.py` lines 120-203) over the expense
list of a billing document for target month (`ty`, `tm`): the concatenation
of every item's rows, or `none` when any item raises (the uncaught
`ValueError` aborts the whole call, so no list is returned at all). -/
def compute_month_expenses (ty tm : Nat) :
    List Expense → Option (List ResolvedExpense)
  | [] => some []
  | e :: rest =>
      optAppend (resolveExpense ty tm e) (compute_month_expenses ty tm rest)

/-- The token pricing table of `update_dashboard.py` (`load_pricing`). -/
structure Rates where
  input : ℚ
  output : ℚ
  cache_write : ℚ
  cache_read : ℚ
deriving DecidableEq, Repr

/-- `compute_token_cost` (`update_dashboard.py` lines 47-54), translated
accumulation step by accumulation step. -/
def compute_token_cost (t : TenantTotals) (rates : Rates) : ℚ :=
  let cost : ℚ := 0
  let cost := cost + (t.input_tokens : ℚ) * rates.input / 1000000
  let cost := cost + (t.output_tokens : ℚ) * rates.output / 1000000
  let cost := cost + (t.cache_creation_tokens : ℚ) * rates.cache_write / 1000000
  let cost := cost + (t.cache_read_tokens : ℚ) * rates.cache_read / 1000000
  cost

/-- The four metered token classes. -/
inductive TokenClass where
  | input : TokenClass
  | output : TokenClass
  | cache_write : TokenClass
  | cache_read : TokenClass
deriving DecidableEq, Repr

/-- A tenant's count in one token class. -/
def classCount (t : TenantTotals) : TokenClass → Nat
  | .input => t.input_tokens
  | .output => t.output_tokens
  | .cache_write => t.cache_creation_tokens
  | .cache_read => t.cache_read_tokens

/-- The configured rate for one token class. -/
def classRate (r : Rates) : TokenClass → ℚ
  | .input => r.input
  | .output => r.output
  | .cache_write => r.cache_write
  | .cache_read => r.cache_read

/-- Modelled from the spec: the repository has no `CostAllocator`
proportional strategy under `src/` (only the metered `compute_token_cost`
exists there), so the proportional allocator is taken from the spec's words:
share_i = `C × (tenant_tokens_i / sum_of_all_tenant_tokens)`; when the sum is
zero every share is zero and `C` is returned as the separate unallocated
amount.  Returns (per-tenant shares, unallocated amount). -/
def allocateProportional (C : ℚ) (tenants : List Nat) : List ℚ × ℚ :=
  if tenants.sum = 0 then
    (tenants.map (fun _ => (0 : ℚ)), C)
  else
    (tenants.map (fun t : Nat => C * (t : ℚ) / ((tenants.sum : Nat) : ℚ)), 0)

/-- Resolving a concatenation of schedules resolves each part (and loses
everything when either part raises). -/
theorem compute_month_expenses_append (ty tm : Nat) (es1 es2 : List Expense) :
    compute_month_expenses ty tm (es1 ++ es2) =
      optAppend (compute_month_expenses ty tm es1)
        (compute_month_expenses ty tm es2) := by
  induction es1 with
  | nil =>
      cases h : compute_month_expenses ty tm es2 <;>
        simp [compute_month_expenses, optAppend, h]
  | cons e rest ih =>
      have step : ∀ l, compute_month_expenses ty tm (e :: l) =
          optAppend (resolveExpense ty tm e) (compute_month_expenses ty tm l) :=
        fun _ => rfl
      rw [List.cons_append, step, step, ih]
      cases resolveExpense ty tm e <;>
        cases compute_month_expenses ty tm rest <;>
        cases compute_month_expenses ty tm es2 <;>
        simp [optAppend]

/-- C8: for every tenant totals record and rate table, the metered allocation
`compute_token_cost` equals the sum over the four token classes of the
tenant's count in the class times the class rate divided by the unit volume
of one million tokens.  The function consumes only the given tenant's
totals, so it cannot depend on any other tenant. -/
theorem C8_metered_cost (t : TenantTotals) (rates : Rates) :
    compute_token_cost t rates =
      ([TokenClass.input, TokenClass.output, TokenClass.cache_write,
        TokenClass.cache_read].map
          (fun c => (classCount t c : ℚ) * classRate rates c / 1000000)).sum := by
  simp only [compute_token_cost, classCount, classRate, List.map_cons,
    List.map_nil, List.sum_cons, List.sum_nil]
  ring

/-- C3: proportional allocation gives each tenant `C × tokens_i / total`;
with a positive grand total the shares sum to exactly `C` (so within any
rounding tolerance of `n` tenants times a non-negative smallest currency
unit), and with a zero grand total every share is zero and `C` is returned
as the separate unallocated amount instead of dividing by zero. -/
theorem sum_map_share (C S : ℚ) (l : List Nat) :
    (l.map (fun t : Nat => C * (t : ℚ) / S)).sum = C * ((l.sum : Nat) : ℚ) / S := by
  induction l with
  | nil => simp
  | cons a l ih =>
      simp only [List.map_cons, List.sum_cons, ih, List.sum_cons]
      push_cast
      ring

theorem C3_proportional (C : ℚ) (tenants : List Nat) :
    (tenants.sum ≠ 0 →
      (allocateProportional C tenants).1 =
        tenants.map (fun t : Nat => C * (t : ℚ) / ((tenants.sum : Nat) : ℚ)) ∧
      (allocateProportional C tenants).1.sum = C ∧
      (∀ u : ℚ, 0 ≤ u →
        |(allocateProportional C tenants).1.sum - C| ≤ (tenants.length : ℚ) * u)) ∧
    (tenants.sum = 0 →
      (∀ s ∈ (allocateProportional C tenants).1, s = 0) ∧
      (allocateProportional C tenants).2 = C) := by
  constructor
  · intro h
    have hS : ((tenants.sum : Nat) : ℚ) ≠ 0 := Nat.cast_ne_zero.mpr h
    have hfst : (allocateProportional C tenants).1 =
        tenants.map (fun t : Nat => C * (t : ℚ) / ((tenants.sum : Nat) : ℚ)) := by
      simp [allocateProportional, h]
    have hsum : (allocateProportional C tenants).1.sum = C := by
      rw [hfst, sum_map_share C _ tenants, mul_div_assoc, div_self hS, mul_one]
    refine ⟨hfst, hsum, ?_⟩
    intro u hu
    rw [hsum]
    simp only [sub_self, abs_zero]
    positivity
  · intro h
    refine ⟨?_, by simp [allocateProportional, h]⟩
    intro s hs
    simp only [allocateProportional, h, if_pos, List.mem_map] at hs
    rcases hs with ⟨t, _, ht⟩
    exact ht.symm

/-- C3 witness: two tenants with 150 and 400 tokens split a shared cost of
100 into shares summing to exactly 100; an empty tenant set leaves the whole
100 unallocated. -/
theorem C3_proportional_witness :
    (allocateProportional 100 [150, 400]).1.sum = 100 ∧
    (∀ s ∈ (allocateProportional 100 ([] : List Nat)).1, s = 0) ∧
    (allocateProportional 100 ([] : List Nat)).2 = 100 := by
  refine ⟨((C3_proportional 100 [150, 400]).1 (by decide)).2.1, ?_, ?_⟩
  · exact ((C3_proportional 100 []).2 (by decide)).1
  · exact ((C3_proportional 100 []).2 (by decide)).2

/-- C10: a recurring item inside its window whose frequency is none of
"monthly", "quarterly", "yearly" still yields a resolved row with
`amount_due = 0`, empty rate label and empty note, instead of being rejected
or raising. -/
theorem C10_unknown_frequency (ty tm sy sm : Nat) (desc : String) (amount : ℚ)
    (freq : String) (end_ : DateField)
    (hm : freq ≠ "monthly") (hq : freq ≠ "quarterly") (hy : freq ≠ "yearly")
    (hstart : ¬ monthBefore ty tm sy sm)
    (hend : end_ = .missing ∨
      ∃ ey em, end_ = .valid ey em ∧ ¬ monthBefore ey em ty tm) :
    resolveExpense ty tm (.recurring desc amount freq (.valid sy sm) end_) =
      some [⟨desc, .empty, 0, ""⟩] := by
  rcases hend with hend | ⟨ey, em, hend, hlt⟩
  · subst hend
    simp [resolveExpense, resolveRecurring, DateField.parse, startSkips,
      endSkips, hstart, hm, hq, hy]
  · subst hend
    simp [resolveExpense, resolveRecurring, DateField.parse, startSkips,
      endSkips, hstart, hlt, hm, hq, hy]

/-- C10 witness: a "weekly" item started January 2025 resolves in March 2025
to a zero row with empty label and note. -/
theorem C10_unknown_frequency_witness :
    ¬ monthBefore 2025 3 2025 1 ∧
    resolveExpense 2025 3 (.recurring "odd" 7 "weekly" (.valid 2025 1) .missing) =
      some [⟨"odd", .empty, 0, ""⟩] :=
  ⟨by decide,
   C10_unknown_frequency 2025 3 2025 1 "odd" 7 "weekly" .missing
     (by decide) (by decide) (by decide) (by decide) (Or.inl rfl)⟩

/-- C2 counterexample: the claim fails on the code in both directions at
concrete inputs.  A monthly item with a missing `start_date` is not excluded
and no error is surfaced — it resolves as due with its full amount; and a
recurring item with a malformed `start_date` raises out of
`compute_month_expenses`, so the other items of the same schedule get no
results at all. -/
theorem C2_counterexample :
    compute_month_expenses 2025 1
        [.recurring "vpn" 10 "monthly" .missing .missing] =
      some [⟨"vpn", .monthly 10, 10, ""⟩] ∧
    compute_month_expenses 2025 1
        [.recurring "bad" 5 "monthly" .malformed .missing,
         .oneTime "gpu" 50 "2025-01-15"] = none := by
  exact ⟨rfl, rfl⟩

/-- C2 amended: a missing `start_date` on a recurring item is silently
defaulted, never surfaced as an error — monthly is due every queried month,
quarterly measures elapsed months against month index 0, and yearly treats
the query month as the anniversary month (so it is always due); a malformed
`start_date` on a recurring item makes resolution of the whole schedule
fail, producing results for no item. -/
theorem C2_start_date_defaults (ty tm : Nat) (desc : String) (amount : ℚ)
    (freq : String) (end_ : DateField) (es1 es2 : List Expense) :
    (resolveExpense ty tm (.recurring desc amount "monthly" .missing .missing) =
      some [⟨desc, .monthly amount, amount, ""⟩]) ∧
    (resolveExpense ty tm (.recurring desc amount "quarterly" .missing .missing) =
      (if ((ty : Int) * 12 + (tm : Int)) % 3 = 0 then
        some [⟨desc, .quarterly amount, amount, ""⟩]
      else
        some [⟨desc, .quarterly amount, 0,
          "[next: " ++
            monthAbbrev ((((tm : Int) - 1 +
              (3 - ((ty : Int) * 12 + (tm : Int)) % 3)) % 12 + 1).toNat) ++
            "]"⟩])) ∧
    (resolveExpense ty tm (.recurring desc amount "yearly" .missing .missing) =
      some [⟨desc, .yearly amount, amount, ""⟩]) ∧
    (compute_month_expenses ty tm
        (es1 ++ .recurring desc amount freq .malformed end_ :: es2) = none) := by
  refine ⟨?_, ?_, ?_, ?_⟩
  · simp [resolveExpense, resolveRecurring, DateField.parse, startSkips, endSkips]
  · by_cases h3 : ((ty : Int) * 12 + (tm : Int)) % 3 = 0 <;>
      simp [resolveExpense, resolveRecurring, DateField.parse, startSkips,
        endSkips, h3]
  · simp [resolveExpense, resolveRecurring, DateField.parse, startSkips, endSkips]
  · rw [compute_month_expenses_append]
    have : resolveExpense ty tm (.recurring desc amount freq .malformed end_) =
        none := by
      simp [resolveExpense, resolveRecurring, DateField.parse]
    simp only [compute_month_expenses, this, optAppend]
    cases compute_month_expenses ty tm es1 <;> rfl

/-- C2 amended witness: concrete defaulting and concrete whole-schedule
failure, at January 2025. -/
theorem C2_start_date_defaults_witness :
    resolveExpense 2025 1 (.recurring "vpn" 10 "monthly" .missing .missing) =
      some [⟨"vpn", .monthly 10, 10, ""⟩] ∧
    compute_month_expenses 2025 1
        ([] ++ .recurring "bad" 5 "weekly" .malformed .missing ::
          [.oneTime "gpu" 50 "2025-01-15"]) = none :=
  ⟨(C2_start_date_defaults 2025 1 "vpn" 10 "weekly" .missing [] []).1,
   (C2_start_date_defaults 2025 1 "bad" 5 "weekly" .missing []
      [.oneTime "gpu" 50 "2025-01-15"]).2.2.2⟩

/-- Inside its window — target month not before the valid start month, end
field missing or a valid month not before the target — a recurring item
reduces to the bare frequency dispatch of `report.py` lines 176-201. -/
theorem resolveRecurring_inWindow (ty tm sy sm : Nat) (desc : String)
    (amount : ℚ) (freq : String) (end_ : DateField)
    (hin : ¬ monthBefore ty tm sy sm)
    (hend : end_ = .missing ∨
      ∃ ey em, end_ = .valid ey em ∧ ¬ monthBefore ey em ty tm) :
    resolveExpense ty tm (.recurring desc amount freq (.valid sy sm) end_) =
      (if freq = "monthly" then
        some [⟨desc, .monthly amount, amount, ""⟩]
      else if freq = "quarterly" then
        if (((ty : Int) * 12 + (tm : Int)) - ((sy : Int) * 12 + (sm : Int))) % 3
            = 0 then
          some [⟨desc, .quarterly amount, amount, ""⟩]
        else
          some [⟨desc, .quarterly amount, 0,
            "[next: " ++
              monthAbbrev ((((tm : Int) - 1 +
                (3 - (((ty : Int) * 12 + (tm : Int)) -
                  ((sy : Int) * 12 + (sm : Int))) % 3)) % 12 + 1).toNat) ++
              "]"⟩]
      else if freq = "yearly" then
        if tm = sm then
          some [⟨desc, .yearly amount, amount, ""⟩]
        else
          some [⟨desc, .yearly amount, 0,
            "[renews " ++ monthAbbrev sm ++ "]"⟩]
      else
        some [⟨desc, .empty, 0, ""⟩]) := by
  rcases hend with hE | ⟨ey, em, hE, hlt⟩
  · subst hE
    simp [resolveExpense, resolveRecurring, DateField.parse, startSkips,
      endSkips, hin]
  · subst hE
    simp [resolveExpense, resolveRecurring, DateField.parse, startSkips,
      endSkips, hin, hlt]

/-- C1: a recurring quarterly expense with a valid start month, inside its
[start, end] window for the target month, is due with its full amount
exactly when the month-index difference `(ty*12+tm) − (sy*12+sm)` is
divisible by 3; otherwise `amount_due = 0` and the note names the calendar
month `3 − (elapsed mod 3)` months after the target month. -/
theorem C1_quarterly (ty tm sy sm : Nat) (desc : String) (amount : ℚ)
    (end_ : DateField)
    (hstart : ¬ monthBefore ty tm sy sm)
    (hend : end_ = .missing ∨
      ∃ ey em, end_ = .valid ey em ∧ ¬ monthBefore ey em ty tm) :
    ((((ty : Int) * 12 + (tm : Int)) - ((sy : Int) * 12 + (sm : Int))) % 3 = 0 →
      resolveExpense ty tm
          (.recurring desc amount "quarterly" (.valid sy sm) end_) =
        some [⟨desc, .quarterly amount, amount, ""⟩]) ∧
    ((((ty : Int) * 12 + (tm : Int)) - ((sy : Int) * 12 + (sm : Int))) % 3 ≠ 0 →
      resolveExpense ty tm
          (.recurring desc amount "quarterly" (.valid sy sm) end_) =
        some [⟨desc, .quarterly amount, 0,
          "[next: " ++
            monthAbbrev ((((tm : Int) - 1 +
              (3 - (((ty : Int) * 12 + (tm : Int)) -
                ((sy : Int) * 12 + (sm : Int))) % 3)) % 12 + 1).toNat) ++
            "]"⟩]) := by
  rw [resolveRecurring_inWindow ty tm sy sm desc amount "quarterly" end_
    hstart hend]
  constructor <;> intro h3 <;> simp [h3]

/-- C1 witness: the spec scenario — a quarterly expense of 300 starting
January 2025 is due in January and April 2025 and produces the advisory
note "[next: Apr]" in February 2025. -/
theorem C1_quarterly_witness :
    resolveExpense 2025 1
        (.recurring "hosting" 300 "quarterly" (.valid 2025 1) .missing) =
      some [⟨"hosting", .quarterly 300, 300, ""⟩] ∧
    resolveExpense 2025 2
        (.recurring "hosting" 300 "quarterly" (.valid 2025 1) .missing) =
      some [⟨"hosting", .quarterly 300, 0, "[next: Apr]"⟩] ∧
    resolveExpense 2025 4
        (.recurring "hosting" 300 "quarterly" (.valid 2025 1) .missing) =
      some [⟨"hosting", .quarterly 300, 300, ""⟩] := by
  refine ⟨?_, ?_, ?_⟩
  · exact (C1_quarterly 2025 1 2025 1 "hosting" 300 .missing (by decide)
      (Or.inl rfl)).1 (by decide)
  · have h := (C1_quarterly 2025 2 2025 1 "hosting" 300 .missing (by decide)
      (Or.inl rfl)).2 (by decide)
    simpa using h
  · exact (C1_quarterly 2025 4 2025 1 "hosting" 300 .missing (by decide)
      (Or.inl rfl)).1 (by decide)

/-- C6: a recurring yearly expense with a valid start month, inside its
window, is due with its full amount exactly when the target month number
equals the start month number (hence in exactly one month of any 12), and in
every other month yields `amount_due = 0` with a note naming the renewal
month. -/
theorem C6_yearly (ty tm sy sm : Nat) (desc : String) (amount : ℚ)
    (end_ : DateField)
    (hstart : ¬ monthBefore ty tm sy sm)
    (hend : end_ = .missing ∨
      ∃ ey em, end_ = .valid ey em ∧ ¬ monthBefore ey em ty tm) :
    (tm = sm →
      resolveExpense ty tm
          (.recurring desc amount "yearly" (.valid sy sm) end_) =
        some [⟨desc, .yearly amount, amount, ""⟩]) ∧
    (tm ≠ sm →
      resolveExpense ty tm
          (.recurring desc amount "yearly" (.valid sy sm) end_) =
        some [⟨desc, .yearly amount, 0,
          "[renews " ++ monthAbbrev sm ++ "]"⟩]) := by
  rw [resolveRecurring_inWindow ty tm sy sm desc amount "yearly" end_
    hstart hend]
  constructor <;> intro hdue <;> simp [hdue]

/-- C6 witness: the spec scenario — a yearly expense of 1200 starting
June 2025 is due in June 2025 and yields "[renews Jun]" in July 2025. -/
theorem C6_yearly_witness :
    resolveExpense 2025 6
        (.recurring "lic" 1200 "yearly" (.valid 2025 6) .missing) =
      some [⟨"lic", .yearly 1200, 1200, ""⟩] ∧
    resolveExpense 2025 7
        (.recurring "lic" 1200 "yearly" (.valid 2025 6) .missing) =
      some [⟨"lic", .yearly 1200, 0, "[renews Jun]"⟩] := by
  constructor
  · exact (C6_yearly 2025 6 2025 6 "lic" 1200 .missing (by decide)
      (Or.inl rfl)).1 rfl
  · have h := (C6_yearly 2025 7 2025 6 "lic" 1200 .missing (by decide)
      (Or.inl rfl)).2 (by decide)
    simpa using h

/-- C7: window bounds of a recurring item, at calendar-month granularity
(day-of-month never enters `DateField`, so it cannot play a role): a target
month strictly before the start month omits the item (whatever the end field
holds, since the start bound is checked first); a valid end month strictly
before the target month omits it; and inside the window — start month
through end month inclusive — the item always contributes exactly one row,
possibly with `amount_due = 0`. -/
theorem C7_window (ty tm sy sm : Nat) (desc : String) (amount : ℚ)
    (freq : String) (end_ : DateField) :
    (monthBefore ty tm sy sm →
      resolveExpense ty tm (.recurring desc amount freq (.valid sy sm) end_) =
        some []) ∧
    (∀ ey em, end_ = .valid ey em → ¬ monthBefore ty tm sy sm →
      monthBefore ey em ty tm →
      resolveExpense ty tm (.recurring desc amount freq (.valid sy sm) end_) =
        some []) ∧
    (¬ monthBefore ty tm sy sm →
      (end_ = .missing ∨
        ∃ ey em, end_ = .valid ey em ∧ ¬ monthBefore ey em ty tm) →
      ∃ r, resolveExpense ty tm
          (.recurring desc amount freq (.valid sy sm) end_) = some [r]) := by
  refine ⟨?_, ?_, ?_⟩
  · intro hlt
    simp [resolveExpense, resolveRecurring, DateField.parse, startSkips, hlt]
  · intro ey em hE hin hlt
    subst hE
    simp [resolveExpense, resolveRecurring, DateField.parse, startSkips,
      endSkips, hin, hlt]
  · intro hin hend
    rw [resolveRecurring_inWindow ty tm sy sm desc amount freq end_ hin hend]
    by_cases hm : freq = "monthly"
    · exact ⟨⟨desc, .monthly amount, amount, ""⟩, by simp [hm]⟩
    by_cases hq : freq = "quarterly"
    · by_cases h3 : (((ty : Int) * 12 + (tm : Int)) -
          ((sy : Int) * 12 + (sm : Int))) % 3 = 0
      · exact ⟨⟨desc, .quarterly amount, amount, ""⟩, by simp [hm, hq, h3]⟩
      · refine ⟨⟨desc, .quarterly amount, 0,
          "[next: " ++
            monthAbbrev ((((tm : Int) - 1 +
              (3 - (((ty : Int) * 12 + (tm : Int)) -
                ((sy : Int) * 12 + (sm : Int))) % 3)) % 12 + 1).toNat) ++
            "]"⟩, by simp [hm, hq, h3]⟩
    by_cases hy : freq = "yearly"
    · by_cases hdue : tm = sm
      · exact ⟨⟨desc, .yearly amount, amount, ""⟩, by simp [hm, hq, hy, hdue]⟩
      · exact ⟨⟨desc, .yearly amount, 0, "[renews " ++ monthAbbrev sm ++ "]"⟩,
          by simp [hm, hq, hy, hdue]⟩
    · exact ⟨⟨desc, .empty, 0, ""⟩, by simp [hm, hq, hy]⟩

/-- C7 witness: a monthly expense windowed February through March 2025 is
absent in January (before start) and April (after end), and present in
March. -/
theorem C7_window_witness :
    resolveExpense 2025 1
        (.recurring "cdn" 20 "monthly" (.valid 2025 2) (.valid 2025 3)) =
      some [] ∧
    resolveExpense 2025 4
        (.recurring "cdn" 20 "monthly" (.valid 2025 2) (.valid 2025 3)) =
      some [] ∧
    ∃ r, resolveExpense 2025 3
        (.recurring "cdn" 20 "monthly" (.valid 2025 2) (.valid 2025 3)) =
      some [r] := by
  refine ⟨?_, ?_, ?_⟩
  · exact (C7_window 2025 1 2025 2 "cdn" 20 "monthly" (.valid 2025 3)).1
      (by decide)
  · exact (C7_window 2025 4 2025 2 "cdn" 20 "monthly" (.valid 2025 3)).2.1
      2025 3 rfl (by decide) (by decide)
  · exact (C7_window 2025 3 2025 2 "cdn" 20 "monthly" (.valid 2025 3)).2.2
      (by decide) (Or.inr ⟨2025, 3, rfl, by decide⟩)

/-- C5: a one-time expense item contributes exactly one resolved row, with
`amount_due` equal to its amount and its date in the note, when its date
string falls within the target month; in any other target month it
contributes nothing at all to the result — no zero row. -/
theorem C5_one_time (ty tm : Nat) (desc : String) (amount : ℚ) (date : String)
    (es1 es2 : List Expense) :
    (strStartsWith date (monthStr ty tm) = true →
      compute_month_expenses ty tm (es1 ++ .oneTime desc amount date :: es2) =
        optAppend (compute_month_expenses ty tm es1)
          (optAppend (some [⟨desc, .oneTime, amount, "[" ++ date ++ "]"⟩])
            (compute_month_expenses ty tm es2))) ∧
    (strStartsWith date (monthStr ty tm) = false →
      compute_month_expenses ty tm (es1 ++ .oneTime desc amount date :: es2) =
        optAppend (compute_month_expenses ty tm es1)
          (compute_month_expenses ty tm es2)) := by
  have step : compute_month_expenses ty tm (.oneTime desc amount date :: es2) =
      optAppend (resolveExpense ty tm (.oneTime desc amount date))
        (compute_month_expenses ty tm es2) := rfl
  constructor <;> intro h
  · rw [compute_month_expenses_append, step]
    simp [resolveExpense, h]
  · rw [compute_month_expenses_append, step]
    have hres : resolveExpense ty tm (.oneTime desc amount date) = some [] := by
      simp [resolveExpense, h]
    rw [hres]
    cases compute_month_expenses ty tm es2 <;> simp [optAppend]

/-- C5 witness: a one-time expense dated 2025-01-15 appears exactly once,
with its amount, in the January 2025 resolution and is absent from the
February 2025 resolution. -/
theorem C5_one_time_witness :
    compute_month_expenses 2025 1 [.oneTime "gpu" 50 "2025-01-15"] =
      some [⟨"gpu", .oneTime, 50, "[2025-01-15]"⟩] ∧
    compute_month_expenses 2025 2 [.oneTime "gpu" 50 "2025-01-15"] =
      some [] := by
  constructor
  · have h := (C5_one_time 2025 1 "gpu" 50 "2025-01-15" [] []).1 (by decide)
    simpa [optAppend] using h
  · have h := (C5_one_time 2025 2 "gpu" 50 "2025-01-15" [] []).2 (by decide)
    simpa [optAppend] using h

/-- A bucket's session count is the multiset count of its code among the
normalized codes of the input. -/
theorem summarize_sessions_count (rows : List SessionRecord) (code : String) :
    (summarize rows code).sessions =
      Multiset.count code ((rows.map normCode : List String) : Multiset String) := by
  rw [summarize_apply]
  show (rows.filter (fun r => normCode r = code)).length = _
  rw [Multiset.coe_count, List.count_eq_countP, List.countP_map,
    ← List.countP_eq_length_filter]
  apply List.countP_congr
  intro r _
  by_cases h : normCode r = code <;> simp [h, Function.comp]

/-- The bucket session counts over the key set add up to the number of input
rows. -/
theorem summarize_total_sessions (rows : List SessionRecord) :
    (∑ c ∈ summarizeKeys rows, (summarize rows c).sessions) = rows.length := by
  calc (∑ c ∈ summarizeKeys rows, (summarize rows c).sessions)
      = ∑ c ∈ ((rows.map normCode : List String) : Multiset String).toFinset,
          Multiset.count c ((rows.map normCode : List String) : Multiset String) := by
        rw [summarizeKeys, ← List.toFinset_coe]
        exact Finset.sum_congr rfl (fun c _ => summarize_sessions_count rows c)
    _ = Multiset.card ((rows.map normCode : List String) : Multiset String) :=
        Multiset.toFinset_sum_count_eq _
    _ = rows.length := by simp

/-- `summarize` is invariant under permutations of its input. -/
theorem summarize_perm (rows rows' : List SessionRecord)
    (h : rows.Perm rows') : summarize rows = summarize rows' := by
  funext code
  rw [summarize_apply, summarize_apply]
  have hf := h.filter (fun r => normCode r = code)
  simp only [TenantTotals.mk.injEq]
  exact ⟨hf.length_eq,
    (hf.map SessionRecord.input_tokens).sum_eq,
    (hf.map SessionRecord.output_tokens).sum_eq,
    (hf.map SessionRecord.cache_creation_tokens).sum_eq,
    (hf.map SessionRecord.cache_read_tokens).sum_eq⟩

/-- C4: `summarize` groups by normalized tenant code (blank going to the
"UNKNOWN" bucket via `normCode`): the bucket session counts sum to the input
length; each per-class bucket sum is the arithmetic sum of that class over
the matching records; the result — mapping and key set — is unchanged under
any reordering of the input; the empty input yields the empty mapping. -/
theorem C4_summarize (rows rows' : List SessionRecord) (code : String)
    (h : rows.Perm rows') :
    (∑ c ∈ summarizeKeys rows, (summarize rows c).sessions) = rows.length ∧
    ((summarize rows code).sessions =
        (rows.filter (fun r => normCode r = code)).length ∧
      (summarize rows code).input_tokens =
        ((rows.filter (fun r => normCode r = code)).map
          SessionRecord.input_tokens).sum ∧
      (summarize rows code).output_tokens =
        ((rows.filter (fun r => normCode r = code)).map
          SessionRecord.output_tokens).sum ∧
      (summarize rows code).cache_creation_tokens =
        ((rows.filter (fun r => normCode r = code)).map
          SessionRecord.cache_creation_tokens).sum ∧
      (summarize rows code).cache_read_tokens =
        ((rows.filter (fun r => normCode r = code)).map
          SessionRecord.cache_read_tokens).sum) ∧
    (summarize rows = summarize rows' ∧
      summarizeKeys rows = summarizeKeys rows') ∧
    (summarize ([] : List SessionRecord) = (fun _ => TenantTotals.zero) ∧
      summarizeKeys ([] : List SessionRecord) = ∅) := by
  refine ⟨summarize_total_sessions rows, ?_, ⟨summarize_perm rows rows' h, ?_⟩,
    rfl, rfl⟩
  · rw [summarize_apply]
    exact ⟨rfl, rfl, rfl, rfl, rfl⟩
  · exact List.toFinset_eq_of_perm _ _ (h.map normCode)

/-- C4 witness: two concrete rows, one with a blank code, summarized before
and after a swap. -/
theorem C4_summarize_witness :
    (∑ c ∈ summarizeKeys
        [⟨"2025-01-01", "A", "X", 10, 20, 30, 40⟩,
         ⟨"2025-01-02", "", "Y", 1, 2, 3, 4⟩],
      (summarize
        [⟨"2025-01-01", "A", "X", 10, 20, 30, 40⟩,
         ⟨"2025-01-02", "", "Y", 1, 2, 3, 4⟩] c).sessions) = 2 ∧
    summarize
        [⟨"2025-01-01", "A", "X", 10, 20, 30, 40⟩,
         ⟨"2025-01-02", "", "Y", 1, 2, 3, 4⟩] =
      summarize
        [⟨"2025-01-02", "", "Y", 1, 2, 3, 4⟩,
         ⟨"2025-01-01", "A", "X", 10, 20, 30, 40⟩] := by
  have h := C4_summarize
    [⟨"2025-01-01", "A", "X", 10, 20, 30, 40⟩,
     ⟨"2025-01-02", "", "Y", 1, 2, 3, 4⟩]
    [⟨"2025-01-02", "", "Y", 1, 2, 3, 4⟩,
     ⟨"2025-01-01", "A", "X", 10, 20, 30, 40⟩]
    "A" (by decide)
  exact ⟨h.1, h.2.2.1.1⟩

/-- C9 counterexample: the fallback registry entry does not carry the most
recent date seen for the tenant.  With tenant A's rows appearing with dates
2025-02-01 then 2025-01-01, the reconstructed entry keeps 2025-01-01 — the
date of the last row in file order — even though a row of A with the later
date 2025-02-01 is in the store (`strLexLe` is chronological order on ISO
dates). -/
theorem C9_counterexample :
    load_project_registry_fallback
        [⟨"2025-02-01", "A", "X", 1, 0, 0, 0⟩,
         ⟨"2025-01-01", "A", "X", 1, 0, 0, 0⟩] "A" =
      some ⟨"X", "2025-01-01"⟩ ∧
    (⟨"2025-02-01", "A", "X", 1, 0, 0, 0⟩ : SessionRecord) ∈
      ([⟨"2025-02-01", "A", "X", 1, 0, 0, 0⟩,
        ⟨"2025-01-01", "A", "X", 1, 0, 0, 0⟩] : List SessionRecord) ∧
    strLexLe "2025-02-01".data "2025-01-01".data = false := by
  refine ⟨by decide, by simp, by decide⟩

/-- C9 amended: when the registry document is absent, the fallback scan maps
each tenant code to the cwd and date of the *last* record in file order for
that tenant, skipping records with a blank tenant code or blank cwd (this is
the most recent date only when the log is date-ordered). -/
theorem C9_registry_fallback (rows : List SessionRecord) (code : String) :
    load_project_registry_fallback rows code = lastEntry rows code := by
  induction rows using List.reverseRecOn with
  | nil => rfl
  | append_singleton xs x ih =>
      unfold load_project_registry_fallback at ih ⊢
      rw [List.foldl_append, List.foldl_cons, List.foldl_nil]
      unfold lastEntry
      rw [List.reverse_append]
      simp only [List.reverse_cons, List.reverse_nil, List.nil_append,
        List.cons_append, List.singleton_append]
      rw [List.find?_cons]
      by_cases hv : x.project_code ≠ "" ∧ x.cwd ≠ ""
      · by_cases hc : x.project_code = code
        · have hne : code ≠ "" := hc ▸ hv.1
          simp [registryStep, hv, hc, hne, hv.2]
        · have hc' : ¬ code = x.project_code := fun hh => hc hh.symm
          simp only [registryStep, hv, if_pos, hc, decide_eq_false hc',
            Bool.and_false, decide_eq_false]
          simp [hv, hc', hc, ih, lastEntry]
      · rw [not_and_or] at hv
        rcases hv with hv | hv
        · rw [not_not] at hv
          simp [registryStep, hv, ih, lastEntry]
        · rw [not_not] at hv
          simp [registryStep, hv, ih, lastEntry]

end ClaudeTracking
